import Mathlib

/-!
Verification of `src/tables_modifications.py` (schema-aware table replication).

Shallow embedding: Python scalar values become the inductive `PyVal`;
pandas DataFrames become a column-name list plus row-major cell lists;
the pyodbc connection becomes a trace of executed statements together
with commit/rollback markers, interpreted by an explicit transactional
database semantics (`applyOps`).
-/

namespace TablesMod

/-- A Python scalar value as it occurs in a fetched DataFrame cell:
`None`, float NaN, a `bool`, a `str`, or an integer. -/
inductive PyVal
  | none
  | nan
  | bool (b : Bool)
  | str (s : String)
  | int (n : Int)
deriving DecidableEq, Repr

/-- Is `c` one of the whitespace characters Python `str.strip()` removes
(restricted to the ASCII ones that can occur in this data). -/
def isPySpace (c : Char) : Bool :=
  c == ' ' || c == '\t' || c == '\n' || c == '\r'

/-- Python `str.strip()`: remove leading and trailing whitespace. -/
def pyStrip (s : String) : String :=
  ⟨((s.data.dropWhile isPySpace).reverse.dropWhile isPySpace).reverse⟩

/-- ASCII lowering of one character, as Python `str.lower()` does on ASCII. -/
def charLower (c : Char) : Char :=
  if 65 ≤ c.toNat && c.toNat ≤ 90 then Char.ofNat (c.toNat + 32) else c

/-- ASCII raising of one character, as Python `str.upper()` does on ASCII. -/
def charUpper (c : Char) : Char :=
  if 97 ≤ c.toNat && c.toNat ≤ 122 then Char.ofNat (c.toNat - 32) else c

/-- Python `str.lower()` (ASCII). -/
def pyLower (s : String) : String := ⟨s.data.map charLower⟩

/-- Python `str.upper()` (ASCII). -/
def pyUpper (s : String) : String := ⟨s.data.map charUpper⟩

/-- Python `str(value)` for the values of `PyVal`. -/
def pyStr : PyVal → String
  | .none => "None"
  | .nan => "nan"
  | .bool true => "True"
  | .bool false => "False"
  | .str s => s
  | .int n => toString n

/-- `pd.isna(value) or value is None` (line 120): true for `None` and NaN. -/
def pdIsna : PyVal → Bool
  | .none => true
  | .nan => true
  | _ => false

/-- `isinstance(value, bool)` (line 124). -/
def pyIsBool : PyVal → Bool
  | .bool _ => true
  | _ => false

/-- The single-quote character, by code point. -/
def quoteChar : Char := Char.ofNat 39

/-- Python `s.replace(old, new)` for a one-character `old`: every occurrence
of the character `c` in `s` is replaced by the character list `r`. -/
def pyReplaceChar (c : Char) (r : List Char) (s : String) : String :=
  ⟨(s.data.map (fun a => if a == c then r else [a])).flatten⟩

/-- `str.replace("'", "''")` of line 146. -/
def escapeQuotes (s : String) : String :=
  pyReplaceChar quoteChar [quoteChar, quoteChar] s

/-- `format_sql_value(value, is_numeric)` (lines 113-147): formats a Python
value into an SQL literal. -/
def formatSqlValue (value : PyVal) (isNumeric : Bool) : String :=
  if pdIsna value then "NULL"
  else match value with
  | .bool b => if b then "1" else "0"
  | v =>
    if isNumeric then
      let strVal := pyStrip (pyStr v)
      if strVal == "" || pyLower strVal == "none" then "NULL"
      else if pyLower strVal == "true" then "1"
      else if pyLower strVal == "false" then "0"
      else strVal
    else
      let strValueRepresentation := pyStr v
      if pyLower (pyStrip strValueRepresentation) == "none" then "NULL"
      else "'" ++ escapeQuotes strValueRepresentation ++ "'"

/-! ## Schema catalog reader (`get_table_schema_info`, lines 48-109) -/

/-- One row of the target catalog query of lines 68-78: column name,
declared type name, identity flag, in catalog ordinal order. -/
structure SchemaRow where
  columnName : String
  dataTypeName : String
  isIdentity : Bool
deriving DecidableEq, Repr

/-- `date_type_list` (line 82). -/
def dateTypeList : List String :=
  ["date", "datetime", "datetime2", "smalldatetime", "datetimeoffset"]

/-- `timestamp_type_list` (line 83). -/
def timestampTypeList : List String := ["timestamp", "rowversion"]

/-- `numeric_type_list` (line 84). -/
def numericTypeList : List String :=
  ["decimal", "numeric", "float", "real", "money", "smallmoney", "int",
   "bigint", "smallint", "tinyint", "bit"]

/-- The result of `get_table_schema_info`: the five accumulators of
lines 59-63 after the loop of lines 86-100. -/
structure SchemaInfo where
  allDbColumns : List String
  dateDbColumns : List String
  timestampDbColumns : List String
  numericDbColumns : List String
  hasIdentityColumn : Bool
deriving DecidableEq, Repr

/-- `get_table_schema_info` (lines 86-100), given the fetched catalog rows:
uppercases each column name, classifies its lowercased type name into the
date / timestamp / numeric lists (first match in that order), and ORs the
identity flags.  A failed catalog query yields the empty row list, hence
all-empty output (the code returns the untouched accumulators). -/
def getTableSchemaInfo : List SchemaRow → SchemaInfo
  | [] => ⟨[], [], [], [], false⟩
  | detail :: rest =>
    let info := getTableSchemaInfo rest
    let colNameUpper := pyUpper detail.columnName
    let dataTypeLower := pyLower detail.dataTypeName
    { allDbColumns := colNameUpper :: info.allDbColumns
      dateDbColumns :=
        if dateTypeList.contains dataTypeLower then
          colNameUpper :: info.dateDbColumns
        else info.dateDbColumns
      timestampDbColumns :=
        if !dateTypeList.contains dataTypeLower
            && timestampTypeList.contains dataTypeLower then
          colNameUpper :: info.timestampDbColumns
        else info.timestampDbColumns
      numericDbColumns :=
        if !dateTypeList.contains dataTypeLower
            && !timestampTypeList.contains dataTypeLower
            && numericTypeList.contains dataTypeLower then
          colNameUpper :: info.numericDbColumns
        else info.numericDbColumns
      hasIdentityColumn := detail.isIdentity || info.hasIdentityColumn }

/-! ## DataFrames and column reconciliation (lines 287-313) -/

/-- A fetched relation: pandas DataFrame as a column-name list and
row-major cells.  Each row list is positionally aligned with `cols`. -/
structure DataFrame where
  cols : List String
  rows : List (List PyVal)
deriving DecidableEq, Repr

/-- `df.empty` (line 288): true when either axis has length zero. -/
def dfEmpty (df : DataFrame) : Bool :=
  df.rows.isEmpty || df.cols.isEmpty

/-- `get_scalar_value_from_row(r, column_name, df_ref)` (lines 150-162):
reading a row's value for a column name takes the FIRST physical column
bearing that name (first-occurrence-wins for duplicated names).  A name
absent from `cols` cannot occur at the call sites; it is mapped to
`PyVal.none` to keep the function total. -/
def rowLookup (cols : List String) (row : List PyVal) (c : String) : PyVal :=
  match (cols.zip row).find? (fun p => p.1 == c) with
  | some p => p.2
  | Option.none => PyVal.none

/-- `str(col).strip().upper()` (line 293): one source column name
standardized. -/
def standardizeColumn (c : String) : String := pyUpper (pyStrip c)

/-- `csv_cols_standardized` (line 293). -/
def csvColsStandardized (cols : List String) : List String :=
  cols.map standardizeColumn

/-- `common_cols_before_ts_filter` (line 303): standardized source columns
that occur among the target's (uppercased) column names, in source order. -/
def commonColsBeforeTsFilter (srcCols : List String) (info : SchemaInfo) :
    List String :=
  (csvColsStandardized srcCols).filter (fun c => info.allDbColumns.contains c)

/-- `columns_to_use_in_sql` (line 304): the common columns minus those of
timestamp/rowversion type. -/
def columnsToUseInSql (srcCols : List String) (info : SchemaInfo) :
    List String :=
  (commonColsBeforeTsFilter srcCols info).filter
    (fun c => !info.timestampDbColumns.contains c)

/-- `excluded_ts_cols` (line 305): the common columns of
timestamp/rowversion type, recorded as excluded. -/
def excludedTsCols (srcCols : List String) (info : SchemaInfo) :
    List String :=
  (commonColsBeforeTsFilter srcCols info).filter
    (fun c => info.timestampDbColumns.contains c)

/-- The usable-column set as claim C3 words it (for comparison with the
code's `columnsToUseInSql`): "the uppercased source column names that
appear among the target schema's column names, kept in the source
relation's original left-to-right order, with every column whose target
type category is Timestamp removed".  Note: uppercased only, no trim. -/
def claimUsableColumns (srcCols : List String) (info : SchemaInfo) :
    List String :=
  ((srcCols.map pyUpper).filter (fun c => info.allDbColumns.contains c)).filter
    (fun c => !info.timestampDbColumns.contains c)

/-! ## Per-cell preparation (lines 313-335) -/

/-- The comma character. -/
def commaChar : Char := Char.ofNat 44

/-- The dot character. -/
def dotChar : Char := Char.ofNat 46

/-- One cell of `df_processed` after the per-column conversions of
lines 314-335.  `dateConv` stands for the pandas pipeline
`pd.to_datetime(x, errors=coerce)` + `strftime` of lines 317-322 (external
pandas behavior, kept as a parameter: no claim depends on its value);
`numericDtype c` is `pd.api.types.is_numeric_dtype` of the column `c`
(a property of the fetched dtypes, likewise a parameter).  A numeric-target
column of non-numeric dtype is stringified with decimal commas rewritten
to dots (lines 330-334). -/
def prepareCell (dateCols numericCols : List String)
    (dateConv : String → PyVal → PyVal) (numericDtype : String → Bool)
    (c : String) (v : PyVal) : PyVal :=
  if dateCols.contains c then dateConv c v
  else if numericCols.contains c then
    if numericDtype c then v
    else .str (pyReplaceChar commaChar [dotChar] (pyStr v))
  else v

/-- `df_processed` (line 313 plus the conversion loop): select the usable
columns (first occurrence for duplicated names) and convert each cell. -/
def prepareRows (stdCols : List String) (rows : List (List PyVal))
    (usable dateCols numericCols : List String)
    (dateConv : String → PyVal → PyVal) (numericDtype : String → Bool) :
    List (List PyVal) :=
  rows.map (fun row => usable.map (fun c =>
    prepareCell dateCols numericCols dateConv numericDtype c
      (rowLookup stdCols row c)))

/-! ## Statement generation (lines 354-378) -/

/-- Python `sep.join(parts)`. -/
def joinSep (sep : String) : List String → String
  | [] => ""
  | [x] => x
  | x :: xs => x ++ sep ++ joinSep sep xs

/-- `f"SET IDENTITY_INSERT [{t}] ON;"` (line 345). -/
def setIdentityInsertOnSql (t : String) : String :=
  "SET IDENTITY_INSERT [" ++ t ++ "] ON;"

/-- `f"SET IDENTITY_INSERT [{t}] OFF;"` (line 386). -/
def setIdentityInsertOffSql (t : String) : String :=
  "SET IDENTITY_INSERT [" ++ t ++ "] OFF;"

/-- The INSERT statement of lines 359-361 for one processed row. -/
def insertSqlFor (t : String) (usable numericCols : List String)
    (row : List PyVal) : String :=
  let valuesForInsert := usable.map (fun c =>
    formatSqlValue (rowLookup usable row c) (numericCols.contains c))
  let columnsForInsertSql := joinSep ", " (usable.map (fun c => "[" ++ c ++ "]"))
  "INSERT INTO [" ++ t ++ "] (" ++ columnsForInsertSql ++ ") VALUES (" ++
    joinSep ", " valuesForInsert ++ ");"

/-- The diagnostic of line 364, naming the missing primary key. -/
def pkMissingDiag (pkU : String) : String :=
  "    Critical Error for UPDATE: PK '" ++ pkU ++
    "' not in usable columns. Skipping row."

/-- What one iteration of the row loop (lines 354-378) decides for a row:
halt the loop (invalid mode, line 374), skip the row with diagnostics
(lines 363-369), or execute a statement. -/
inductive RowAction
  | halt
  | skip (diags : List String)
  | stmt (sql : String)
deriving DecidableEq, Repr

/-- The `sql_query` construction of lines 356-378 for one row.  `modeU` is
`operation_mode.upper()`, `pkU` is `primary_key_column.upper()` (line 349),
`idx` is the DataFrame index of the row (0-based, as produced by
`read_sql_query`); the missing-PK diagnostic is printed only at index 0
(line 364). -/
def buildRowStatement (modeU t : String) (usable numericCols : List String)
    (pkU : String) (row : List PyVal) (idx : Nat) : RowAction :=
  if modeU == "INSERT" then .stmt (insertSqlFor t usable numericCols row)
  else if modeU == "UPDATE" then
    if usable.contains pkU then
      let setClauses := (usable.filter (fun c => c != pkU)).map (fun c =>
        "[" ++ c ++ "] = " ++
          formatSqlValue (rowLookup usable row c) (numericCols.contains c))
      if setClauses.isEmpty then
        .skip ["    INFO: No columns to update for row (index " ++
          toString idx ++ "). Skipping."]
      else
        let pkValueFormatted :=
          formatSqlValue (rowLookup usable row pkU) (numericCols.contains pkU)
        .stmt ("UPDATE [" ++ t ++ "] SET " ++ joinSep ", " setClauses ++
          " WHERE [" ++ pkU ++ "] = " ++ pkValueFormatted ++ ";")
    else .skip (if idx == 0 then [pkMissingDiag pkU] else [])
  else .halt

/-! ## The per-table SQL execution block (lines 337-404)

A database error while executing a statement is modelled by an oracle
`fails : Nat → Bool` consulted at each `cursor.execute` of the table's
pass, numbered from 0 in execution order: `fails k = true` means the
k-th execute raises `pyodbc.Error`, which the code catches by rolling
the table's transaction back.  `commit` and `rollback` themselves are
modelled as succeeding. -/

/-- The row loop of lines 354-383: returns the successfully executed
statements in order, the printed diagnostics, the next execute-oracle
index, and `false` when an execute raised (the exception aborts the
remaining rows; the caller then rolls back). -/
def runRows (modeU t : String) (usable numericCols : List String)
    (pkU : String) (fails : Nat → Bool) :
    List (List PyVal) → Nat → Nat → List String × List String × Nat × Bool
  | [], _, k => ([], [], k, true)
  | row :: rest, idx, k =>
    match buildRowStatement modeU t usable numericCols pkU row idx with
    | .halt => ([], [], k, true)
    | .skip ds =>
      let r := runRows modeU t usable numericCols pkU fails rest (idx + 1) k
      (r.1, ds ++ r.2.1, r.2.2.1, r.2.2.2)
    | .stmt sql =>
      if sql == "" then
        let r := runRows modeU t usable numericCols pkU fails rest (idx + 1) k
        (r.1, ("        Skipping row " ++ toString idx ++
          " due to empty query.") :: r.2.1, r.2.2.1, r.2.2.2)
      else if fails k then ([], [], k, false)
      else
        let r := runRows modeU t usable numericCols pkU fails rest (idx + 1) (k + 1)
        (sql :: r.1, r.2.1, r.2.2.1, r.2.2.2)

/-- Outcome of one table's SQL execution block: statements successfully
executed, diagnostics, and `table_data_ops_successful` (line 339/392). -/
structure ExecOut where
  stmts : List String
  diags : List String
  success : Bool
deriving DecidableEq, Repr

/-- The SQL execution block of lines 337-404 for one table: identity
bracketing around the row loop when the mode is INSERT and the table has
an identity column (lines 344-347 and 385-388), then `commit` (line 390);
on a raised execute, `rollback` (line 396) and `success := false`. -/
def runTable (modeU pkU t : String) (hasIdentity : Bool)
    (usable numericCols : List String) (prows : List (List PyVal))
    (fails : Nat → Bool) : ExecOut :=
  if modeU == "INSERT" && hasIdentity then
    if fails 0 then ⟨[], [], false⟩
    else
      let onSql := setIdentityInsertOnSql t
      let r := runRows modeU t usable numericCols pkU fails prows 0 1
      if r.2.2.2 then
        if fails r.2.2.1 then ⟨onSql :: r.1, r.2.1, false⟩
        else ⟨onSql :: r.1 ++ [setIdentityInsertOffSql t], r.2.1, true⟩
      else ⟨onSql :: r.1, r.2.1, false⟩
  else
    let r := runRows modeU t usable numericCols pkU fails prows 0 0
    ⟨r.1, r.2.1, r.2.2.2⟩

/-! ## The data pass across tables (lines 277-431) -/

/-- The configuration the data pass reads: `operation_mode` (line 39) and
`primary_key_column` (line 44). -/
structure Config where
  operationMode : String
  primaryKeyColumn : String
deriving DecidableEq, Repr

/-- What the data pass is given for one table: its name, the target
catalog rows the schema query returned (empty when the lookup failed),
and the fetched DataFrame. -/
structure TableInput where
  name : String
  schemaRows : List SchemaRow
  df : DataFrame
deriving DecidableEq, Repr

/-- Which branch of the per-table data pass a table ended in. -/
inductive TableOutcome
  | skippedNoSchema   -- lines 283-285
  | emptyCommitted    -- lines 288-291: empty relation counts as success
  | skippedNoUsable   -- lines 307-309
  | committed         -- line 390-392
  | rolledBack        -- lines 394-401
deriving DecidableEq, Repr

/-- One table's result in the data pass. -/
structure TableResult where
  name : String
  outcome : TableOutcome
  stmts : List String
  diags : List String
deriving DecidableEq, Repr

/-- `total_tables_committed_successfully` counts a table when the code
increments it: at line 290 (empty relation) or line 404 (committed). -/
def countsCommitted : TableOutcome → Bool
  | .emptyCommitted => true
  | .committed => true
  | _ => false

/-- The body of the data-pass loop (lines 277-408) for one table. -/
def processOneTable (cfg : Config) (dateConv : String → PyVal → PyVal)
    (numericDtype : String → Bool) (fails : Nat → Bool) (inp : TableInput) :
    TableResult :=
  let info := getTableSchemaInfo inp.schemaRows
  if info.allDbColumns.isEmpty then ⟨inp.name, .skippedNoSchema, [], []⟩
  else if dfEmpty inp.df then ⟨inp.name, .emptyCommitted, [], []⟩
  else
    let stdCols := csvColsStandardized inp.df.cols
    let usable := columnsToUseInSql inp.df.cols info
    if usable.isEmpty then ⟨inp.name, .skippedNoUsable, [], []⟩
    else
      let prows := prepareRows stdCols inp.df.rows usable info.dateDbColumns
        info.numericDbColumns dateConv numericDtype
      let r := runTable (pyUpper cfg.operationMode)
        (pyUpper cfg.primaryKeyColumn) inp.name info.hasIdentityColumn
        usable info.numericDbColumns prows fails
      ⟨inp.name, if r.success then .committed else .rolledBack,
        r.stmts, r.diags⟩

/-- The whole data pass (lines 276-409): tables processed sequentially in
input order, each with its own execute-failure oracle `failsFor i`. -/
def runDataPass (cfg : Config) (dateConv : String → PyVal → PyVal)
    (numericDtype : String → Bool) (failsFor : Nat → Nat → Bool)
    (inputs : List TableInput) : List TableResult :=
  inputs.mapIdx (fun i inp =>
    processOneTable cfg dateConv numericDtype (failsFor i) inp)

/-- `tables_attempted_in_data_pass` (line 278): incremented once per table. -/
def tablesAttemptedInDataPass (rs : List TableResult) : Nat := rs.length

/-- `total_tables_committed_successfully` (lines 290 and 404). -/
def totalTablesCommittedSuccessfully (rs : List TableResult) : Nat :=
  rs.countP (fun r => countsCommitted r.outcome)

/-- `failed_data_tables_count` (line 429): derived by subtraction; the
code labels it "Failed (rolled back or skipped)" (line 431). -/
def failedDataTablesCount (rs : List TableResult) : Nat :=
  tablesAttemptedInDataPass rs - totalTablesCommittedSuccessfully rs

/-! ## Transactional semantics of the shared target connection -/

/-- One operation on the target connection. -/
inductive Op
  | exec (sql : String)
  | commit
  | rollback
deriving DecidableEq, Repr

/-- The operations one table's data pass performed on the connection, in
order: its executed statements, then `commit` on success (line 390) or
`rollback` on a raised execute (line 396).  Skipped tables and empty
relations touch no transaction. -/
def TableResult.trace (r : TableResult) : List Op :=
  match r.outcome with
  | .committed => r.stmts.map Op.exec ++ [Op.commit]
  | .rolledBack => r.stmts.map Op.exec ++ [Op.rollback]
  | _ => []

/-- The interleaved operation trace of the whole data pass, each operation
tagged with the table that issued it (all on the one shared connection). -/
def passTrace (rs : List TableResult) : List (String × Op) :=
  (rs.map (fun r => r.trace.map (fun o => (r.name, o)))).flatten

/-- Transactional semantics of the connection: an executed statement is
pending until the next `commit` makes every pending statement visible;
`rollback` discards all pending statements; pending statements left at
the end are never visible. -/
def applyOps : List (String × Op) → List (String × String) →
    List (String × String) → List (String × String)
  | [], committed, _ => committed
  | (t, .exec s) :: rest, committed, pending =>
    applyOps rest committed (pending ++ [(t, s)])
  | (_, .commit) :: rest, committed, pending =>
    applyOps rest (committed ++ pending) []
  | (_, .rollback) :: rest, committed, _ =>
    applyOps rest committed []

/-- The rows visible (committed) on the target after the data pass,
as (table, statement) pairs. -/
def committedAfter (rs : List TableResult) : List (String × String) :=
  applyOps (passTrace rs) [] []

/-- What one table's pass contributes to the committed state. -/
def contribution (r : TableResult) : List (String × String) :=
  if r.outcome = .committed then r.stmts.map (fun s => (r.name, s)) else []

/-! ## Table-list reading and the orchestrator (lines 166-561) -/

/-- `get_table_names_from_file` (lines 434-454): the file is modelled as
`Option (List String)` — `Option.none` when it does not exist or cannot be
read (`FileNotFoundError` and the generic handler both leave `table_names`
as the initial `[]` and fall through to `return table_names`); otherwise
its lines.  Each line is stripped; empty lines and lines starting with
`#` are ignored. -/
def getTableNamesFromFile (content : Option (List String)) : List String :=
  match content with
  | Option.none => []
  | some lines =>
    (lines.map pyStrip).filter
      (fun t => t != "" && !t.startsWith "#")

/-- `fetch_all_data_from_source` (lines 509-554): reads the table list;
with no names, or with the source connection failing (`sourceConnOk`
false), returns the empty data map; otherwise fetches each table
(`fetch n = Option.none` models a per-table fetch error, which omits the
table).  The `{table_name: DataFrame}` dict is modelled as an association
list in insertion order. -/
def fetchAllDataFromSource (content : Option (List String))
    (sourceConnOk : Bool) (fetch : String → Option DataFrame) :
    List (String × DataFrame) :=
  let tableNames := getTableNamesFromFile content
  if tableNames.isEmpty then []
  else if !sourceConnOk then []
  else tableNames.filterMap (fun n => (fetch n).map (fun df => (n, df)))

/-- `process_data_and_generate_sql` (lines 166-431), with the pre-delete
pass disabled as configured (`execute_pre_delete_on_target = False`,
line 34): fetch everything from the source, return with no SQL executed
when the fetched map is empty (lines 181-183) or the target connection
fails (lines 205-207), otherwise run the data pass.  `schemaOf` gives the
catalog rows the per-table schema query returns on the target. -/
def processDataAndGenerateSql (cfg : Config)
    (content : Option (List String)) (sourceConnOk targetConnOk : Bool)
    (fetch : String → Option DataFrame) (schemaOf : String → List SchemaRow)
    (dateConv : String → PyVal → PyVal) (numericDtype : String → Bool)
    (failsFor : Nat → Nat → Bool) : List TableResult :=
  let fetchedDataMap := fetchAllDataFromSource content sourceConnOk fetch
  if fetchedDataMap.isEmpty then []
  else if !targetConnOk then []
  else
    runDataPass cfg dateConv numericDtype failsFor
      (fetchedDataMap.map (fun p => ⟨p.1, schemaOf p.1, p.2⟩))

/-- The processed rows (`df_processed`) the data pass builds for a table:
`prepareRows` applied to the table's standardized columns, usable columns
and schema classification. -/
def preparedRowsOf (dateConv : String → PyVal → PyVal)
    (numericDtype : String → Bool) (inp : TableInput) : List (List PyVal) :=
  prepareRows (csvColsStandardized inp.df.cols) inp.df.rows
    (columnsToUseInSql inp.df.cols (getTableSchemaInfo inp.schemaRows))
    (getTableSchemaInfo inp.schemaRows).dateDbColumns
    (getTableSchemaInfo inp.schemaRows).numericDbColumns dateConv numericDtype

/-- The SQL execution block as invoked by `processOneTable` on the
non-skipped path (lines 337-404 with the arguments of lines 281-335). -/
def tableRun (cfg : Config) (dateConv : String → PyVal → PyVal)
    (numericDtype : String → Bool) (fails : Nat → Bool) (inp : TableInput) :
    ExecOut :=
  runTable (pyUpper cfg.operationMode) (pyUpper cfg.primaryKeyColumn) inp.name
    (getTableSchemaInfo inp.schemaRows).hasIdentityColumn
    (columnsToUseInSql inp.df.cols (getTableSchemaInfo inp.schemaRows))
    (getTableSchemaInfo inp.schemaRows).numericDbColumns
    (preparedRowsOf dateConv numericDtype inp) fails

/-! ## Claims about the value formatter -/

/-- C5: for every input value and both values of the numeric-target flag,
`format_sql_value` returns the literal NULL when the value is null/missing
(None or NaN) or is a string case-insensitively equal to "none" after
trimming; in particular `format(NULL, _) = "NULL"` and
`format("None", _) = "NULL"` regardless of case. -/
theorem formatSqlValue_null_cases (v : PyVal) (isNumeric : Bool)
    (h : v = PyVal.none ∨ v = PyVal.nan ∨
      ∃ s, v = PyVal.str s ∧ pyLower (pyStrip s) = "none") :
    formatSqlValue v isNumeric = "NULL" := by
  rcases h with h | h | ⟨s, rfl, hs⟩
  · subst h; cases isNumeric <;> rfl
  · subst h; cases isNumeric <;> rfl
  · cases isNumeric <;> simp [formatSqlValue, pdIsna, pyStr, hs]

/-- Closed witness for C5 at `NULL` and at the string `"None"`. -/
theorem formatSqlValue_null_cases_witness :
    formatSqlValue PyVal.none true = "NULL" ∧
    formatSqlValue (PyVal.str "None") false = "NULL" ∧
    formatSqlValue (PyVal.str "nOnE") true = "NULL" :=
  ⟨formatSqlValue_null_cases _ _ (Or.inl rfl),
   formatSqlValue_null_cases _ _ (Or.inr (Or.inr ⟨"None", rfl, by decide⟩)),
   formatSqlValue_null_cases _ _ (Or.inr (Or.inr ⟨"nOnE", rfl, by decide⟩))⟩

/-- C6 as stated is false on the code: with a numeric target, the value
`"none"` is not a boolean, its trimmed string form `"none"` is neither
empty nor (case-insensitively) "true"/"false", so the claim's "any other
value formats to its trimmed string form verbatim" demands `"none"`; the
code returns `NULL` instead (line 130-131). -/
theorem formatSqlValue_numeric_counterexample :
    pdIsna (PyVal.str "none") = false ∧
    pyIsBool (PyVal.str "none") = false ∧
    pyStrip (pyStr (PyVal.str "none")) = "none" ∧
    pyLower "none" ≠ "true" ∧ pyLower "none" ≠ "false" ∧
    formatSqlValue (PyVal.str "none") true = "NULL" ∧
    ("NULL" : String) ≠ "none" := by decide

/-- C6 amended: for every value formatted with a numeric target, a boolean
formats to 1/0; a null/missing value formats to NULL; a non-null,
non-boolean value whose trimmed string form case-insensitively equals
"none" formats to NULL; and any other non-null, non-boolean value formats
to NULL when its trimmed string form is empty, to 1/0 when that form
case-insensitively equals "true"/"false", and otherwise to that trimmed
form verbatim, unquoted. -/
theorem formatSqlValue_numeric_target :
    (∀ b : Bool, formatSqlValue (.bool b) true = if b then "1" else "0") ∧
    (∀ v : PyVal, pdIsna v = true → formatSqlValue v true = "NULL") ∧
    (∀ v : PyVal, pyIsBool v = false →
      pyLower (pyStrip (pyStr v)) = "none" → formatSqlValue v true = "NULL") ∧
    (∀ v : PyVal, pdIsna v = false → pyIsBool v = false →
      pyLower (pyStrip (pyStr v)) ≠ "none" →
      formatSqlValue v true =
        if pyStrip (pyStr v) == "" then "NULL"
        else if pyLower (pyStrip (pyStr v)) == "true" then "1"
        else if pyLower (pyStrip (pyStr v)) == "false" then "0"
        else pyStrip (pyStr v)) := by
  refine ⟨fun b => by cases b <;> rfl, fun v h => ?_, fun v hb hn => ?_,
    fun v hna hb hn => ?_⟩
  · cases v <;> simp_all [pdIsna, formatSqlValue]
  · cases v <;> simp_all [pyIsBool, pdIsna, formatSqlValue, pyStr]
  · cases v <;> simp_all [pyIsBool, pdIsna, formatSqlValue, pyStr]

/-- Closed witness for the amended C6 at representative inputs. -/
theorem formatSqlValue_numeric_target_witness :
    formatSqlValue (.bool true) true = "1" ∧
    formatSqlValue PyVal.nan true = "NULL" ∧
    formatSqlValue (PyVal.str " NONE ") true = "NULL" ∧
    formatSqlValue (PyVal.str " 42 ") true = "42" ∧
    formatSqlValue (PyVal.str "FaLsE") true = "0" :=
  ⟨formatSqlValue_numeric_target.1 true,
   formatSqlValue_numeric_target.2.1 PyVal.nan rfl,
   formatSqlValue_numeric_target.2.2.1 (PyVal.str " NONE ") (by decide)
     (by decide),
   (formatSqlValue_numeric_target.2.2.2 (PyVal.str " 42 ") (by decide)
     (by decide) (by decide)).trans (by decide),
   (formatSqlValue_numeric_target.2.2.2 (PyVal.str "FaLsE") (by decide)
     (by decide) (by decide)).trans (by decide)⟩

/-- C7 as stated is false on the code: the string `"none"` is non-null and
non-boolean, yet with a non-numeric target the code returns `NULL`
(lines 142-143) instead of the quoted-and-escaped string. -/
theorem formatSqlValue_string_counterexample :
    pdIsna (PyVal.str "none") = false ∧
    pyIsBool (PyVal.str "none") = false ∧
    formatSqlValue (PyVal.str "none") false = "NULL" ∧
    ("NULL" : String) ≠ "'" ++ escapeQuotes (pyStr (PyVal.str "none")) ++ "'" := by
  decide

/-- C7 amended: for every non-null, non-boolean value whose trimmed string
form is not case-insensitively equal to "none", formatting with a
non-numeric target converts the value to its string form, doubles every
embedded single quote, and wraps the result in single quotes; in
particular `format("O'Brien", false) = "'O''Brien'"`. -/
theorem formatSqlValue_string_target :
    (∀ v : PyVal, pdIsna v = false → pyIsBool v = false →
      pyLower (pyStrip (pyStr v)) ≠ "none" →
      formatSqlValue v false = "'" ++ escapeQuotes (pyStr v) ++ "'") ∧
    formatSqlValue (PyVal.str "O'Brien") false = "'O''Brien'" := by
  refine ⟨fun v hna hb hn => ?_, by decide⟩
  cases v <;> simp_all [pyIsBool, pdIsna, formatSqlValue, pyStr]

/-- Closed witness for the amended C7 at the claim's own example. -/
theorem formatSqlValue_string_target_witness :
    formatSqlValue (PyVal.str "O'Brien") false = "'O''Brien'" :=
  (formatSqlValue_string_target.1 (PyVal.str "O'Brien") (by decide) (by decide)
    (by decide)).trans (by decide)

/-! ## String helper lemmas -/

theorem strData_append (a b : String) : (a ++ b).data = a.data ++ b.data := rfl

theorem strAppend_assoc (a b c : String) : a ++ b ++ c = a ++ (b ++ c) :=
  String.ext (by simp [strData_append])

theorem str_ne_empty_of_right (a b : String) (h : b ≠ "") : a ++ b ≠ "" := by
  intro he
  have hd : a.data ++ b.data = [] := by
    simpa [strData_append] using congrArg String.data he
  exact h (String.ext (List.append_eq_nil.mp hd).2)

theorem insertSqlFor_ne_empty (t : String) (u n : List String)
    (row : List PyVal) : insertSqlFor t u n row ≠ "" :=
  str_ne_empty_of_right _ _ (by decide)

theorem insertSqlFor_prefix (t : String) (u n : List String)
    (row : List PyVal) : ∃ x, insertSqlFor t u n row = "INSERT INTO [" ++ x := by
  refine ⟨t ++ ("] (" ++ (joinSep ", " (u.map (fun c => "[" ++ c ++ "]")) ++
    (") VALUES (" ++ (joinSep ", " (u.map (fun c =>
      formatSqlValue (rowLookup u row c) (n.contains c))) ++ ");")))), ?_⟩
  simp [insertSqlFor, strAppend_assoc]

theorem ne_of_head_ne {a b : String} (h : a.data.head? ≠ b.data.head?) :
    a ≠ b := fun he => h (congrArg (fun s : String => s.data.head?) he)

theorem insert_prefix_ne_setOn (x t2 : String) :
    ("INSERT INTO [" ++ x : String) ≠ setIdentityInsertOnSql t2 := by
  apply ne_of_head_ne
  intro h
  have h2 : (some 'I' : Option Char) = some 'S' := h
  simp at h2

theorem insert_prefix_ne_setOff (x t2 : String) :
    ("INSERT INTO [" ++ x : String) ≠ setIdentityInsertOffSql t2 := by
  apply ne_of_head_ne
  intro h
  have h2 : (some 'I' : Option Char) = some 'S' := h
  simp at h2

theorem update_prefix_ne_setOn (x t2 : String) :
    ("UPDATE [" ++ x : String) ≠ setIdentityInsertOnSql t2 := by
  apply ne_of_head_ne
  intro h
  have h2 : (some 'U' : Option Char) = some 'S' := h
  simp at h2

theorem update_prefix_ne_setOff (x t2 : String) :
    ("UPDATE [" ++ x : String) ≠ setIdentityInsertOffSql t2 := by
  apply ne_of_head_ne
  intro h
  have h2 : (some 'U' : Option Char) = some 'S' := h
  simp at h2

/-! ## Claims about column reconciliation -/

theorem beqComm {α : Type} [BEq α] [LawfulBEq α] (a b : α) :
    (a == b) = (b == a) := by
  by_cases h : a = b
  · subst h; rfl
  · rw [beq_eq_false_iff_ne.mpr h, beq_eq_false_iff_ne.mpr (Ne.symm h)]

theorem allDbColumns_eq_map (rs : List SchemaRow) :
    (getTableSchemaInfo rs).allDbColumns =
      rs.map (fun r => pyUpper r.columnName) := by
  induction rs with
  | nil => rfl
  | cons r rest ih => simp [getTableSchemaInfo, ih]

theorem ts_type_not_date_type {s : String} (h : s ∈ timestampTypeList) :
    s ∉ dateTypeList := by
  have : s = "timestamp" ∨ s = "rowversion" := by
    simpa [timestampTypeList] using h
  rcases this with rfl | rfl <;> decide

theorem timestampDbColumns_contains_eq (rs : List SchemaRow) (c : String) :
    (getTableSchemaInfo rs).timestampDbColumns.contains c =
      rs.any (fun r => c == pyUpper r.columnName &&
        timestampTypeList.contains (pyLower r.dataTypeName)) := by
  induction rs with
  | nil => rfl
  | cons r rest ih =>
    by_cases hd : pyLower r.dataTypeName ∈ dateTypeList
    · have hts : pyLower r.dataTypeName ∉ timestampTypeList :=
        fun h2 => ts_type_not_date_type h2 hd
      have hstep : (getTableSchemaInfo (r :: rest)).timestampDbColumns =
          (getTableSchemaInfo rest).timestampDbColumns := by
        simp [getTableSchemaInfo, hd, hts]
      have hcf : timestampTypeList.contains (pyLower r.dataTypeName) = false := by
        simpa using hts
      rw [hstep, ih, List.any_cons, hcf, Bool.and_false, Bool.false_or]
    · by_cases hts : pyLower r.dataTypeName ∈ timestampTypeList
      · have hstep : (getTableSchemaInfo (r :: rest)).timestampDbColumns =
            pyUpper r.columnName ::
              (getTableSchemaInfo rest).timestampDbColumns := by
          simp [getTableSchemaInfo, hd, hts]
        have hct : timestampTypeList.contains (pyLower r.dataTypeName) = true := by
          simpa using hts
        rw [hstep, List.contains_cons, ih, List.any_cons, hct, Bool.and_true]
      · have hstep : (getTableSchemaInfo (r :: rest)).timestampDbColumns =
            (getTableSchemaInfo rest).timestampDbColumns := by
          simp [getTableSchemaInfo, hd, hts]
        have hcf : timestampTypeList.contains (pyLower r.dataTypeName) = false := by
          simpa using hts
        rw [hstep, ih, List.any_cons, hcf, Bool.and_false, Bool.false_or]

/-- C3 as stated is false on the code: the code standardizes a source
column name with `str(col).strip().upper()` (line 293), so a source column
`" id "` matches a target column `ID`; taking only "the uppercased source
column names" as the claim words it, `" ID "` would match nothing. -/
theorem reconciliation_counterexample :
    columnsToUseInSql [" id "] (getTableSchemaInfo [⟨"Id", "int", false⟩]) =
      ["ID"] ∧
    claimUsableColumns [" id "] (getTableSchemaInfo [⟨"Id", "int", false⟩]) =
      [] ∧
    (["ID"] : List String) ≠ [] := by decide

/-- C3 amended: the usable column set equals the TRIMMED-and-uppercased
source column names that appear (after uppercasing both sides) among the
target schema's column names, kept in the source relation's original
left-to-right order, with every column of timestamp/rowversion target
type removed; those removed columns are recorded separately as excluded,
also in source order. -/
theorem reconciliation_characterization (srcCols : List String)
    (rs : List SchemaRow) :
    columnsToUseInSql srcCols (getTableSchemaInfo rs) =
      (srcCols.map standardizeColumn).filter (fun c =>
        (rs.map (fun r => pyUpper r.columnName)).contains c &&
        !rs.any (fun r => c == pyUpper r.columnName &&
          timestampTypeList.contains (pyLower r.dataTypeName))) ∧
    excludedTsCols srcCols (getTableSchemaInfo rs) =
      (srcCols.map standardizeColumn).filter (fun c =>
        (rs.map (fun r => pyUpper r.columnName)).contains c &&
        rs.any (fun r => c == pyUpper r.columnName &&
          timestampTypeList.contains (pyLower r.dataTypeName))) := by
  constructor
  · unfold columnsToUseInSql commonColsBeforeTsFilter csvColsStandardized
    rw [List.filter_filter]
    refine List.filter_congr (fun x _ => ?_)
    rw [timestampDbColumns_contains_eq, allDbColumns_eq_map, Bool.and_comm]
  · unfold excludedTsCols commonColsBeforeTsFilter csvColsStandardized
    rw [List.filter_filter]
    refine List.filter_congr (fun x _ => ?_)
    rw [timestampDbColumns_contains_eq, allDbColumns_eq_map, Bool.and_comm]

/-! ## Lemmas about the row loop and the execution block -/

theorem runRows_insert_noFail (t : String) (u n : List String) (pkU : String)
    (fails : Nat → Bool) (hf : ∀ j, fails j = false) :
    ∀ (rows : List (List PyVal)) (idx k : Nat),
      runRows "INSERT" t u n pkU fails rows idx k =
        (rows.map (fun row => insertSqlFor t u n row), [], k + rows.length,
          true) := by
  intro rows
  induction rows with
  | nil => intro idx k; simp [runRows]
  | cons row rest ih =>
    intro idx k
    have hne : (insertSqlFor t u n row == "") = false :=
      beq_eq_false_iff_ne.mpr (insertSqlFor_ne_empty t u n row)
    have hb : buildRowStatement "INSERT" t u n pkU row idx =
        .stmt (insertSqlFor t u n row) := rfl
    simp only [runRows, hb, hne, hf k, Bool.false_eq_true, if_false,
      ih (idx + 1) (k + 1), List.map_cons, List.length_cons]
    have harith : k + 1 + rest.length = k + (rest.length + 1) := by omega
    rw [harith]

theorem runTable_insert_identity_noFail (t pkU : String) (u n : List String)
    (prows : List (List PyVal)) (fails : Nat → Bool)
    (hf : ∀ j, fails j = false) :
    runTable "INSERT" pkU t true u n prows fails =
      ⟨setIdentityInsertOnSql t :: prows.map (fun row => insertSqlFor t u n row)
        ++ [setIdentityInsertOffSql t], [], true⟩ := by
  simp [runTable, hf, runRows_insert_noFail t u n pkU fails hf prows 0 1]

theorem buildRowStatement_stmt_shape (modeU t : String) (u n : List String)
    (pkU : String) (row : List PyVal) (idx : Nat) (sql : String)
    (hb : buildRowStatement modeU t u n pkU row idx = .stmt sql) :
    (∃ x, sql = "INSERT INTO [" ++ x) ∨ (∃ x, sql = "UPDATE [" ++ x) := by
  by_cases hI : (modeU == "INSERT") = true
  · left
    have : insertSqlFor t u n row = sql := by
      simpa [buildRowStatement, hI] using hb
    rw [← this]
    exact insertSqlFor_prefix t u n row
  · by_cases hU : (modeU == "UPDATE") = true
    · right
      have hI' : (modeU == "INSERT") = false := by simpa using hI
      simp only [buildRowStatement, hI', hU, Bool.false_eq_true, if_false,
        if_true] at hb
      split at hb
      · split at hb
        · exact absurd hb (by simp)
        · have := (RowAction.stmt.injEq _ _).mp hb
          rw [← this]
          simp only [strAppend_assoc]
          exact ⟨_, rfl⟩
      · exact absurd hb (by simp)
    · have hI' : (modeU == "INSERT") = false := by simpa using hI
      have hU' : (modeU == "UPDATE") = false := by simpa using hU
      simp [buildRowStatement, hI', hU'] at hb

theorem runRows_stmts_shape (modeU t : String) (u n : List String)
    (pkU : String) (fails : Nat → Bool) :
    ∀ (rows : List (List PyVal)) (idx k : Nat),
      ∀ s ∈ (runRows modeU t u n pkU fails rows idx k).1,
        (∃ x, s = "INSERT INTO [" ++ x) ∨ (∃ x, s = "UPDATE [" ++ x) := by
  intro rows
  induction rows with
  | nil => intro idx k s hs; simp [runRows] at hs
  | cons row rest ih =>
    intro idx k s hs
    rcases hb : buildRowStatement modeU t u n pkU row idx with _ | ds | sql
    · rw [runRows, hb] at hs
      simp at hs
    · rw [runRows, hb] at hs
      exact ih (idx + 1) k s hs
    · rw [runRows, hb] at hs
      dsimp only at hs
      by_cases hsq : (sql == "") = true
      · rw [if_pos hsq] at hs
        exact ih (idx + 1) k s hs
      · rw [if_neg hsq] at hs
        by_cases hfk : fails k = true
        · rw [if_pos hfk] at hs
          simp at hs
        · rw [if_neg hfk] at hs
          rcases (List.mem_cons).mp hs with rfl | hs2
          · exact buildRowStatement_stmt_shape modeU t u n pkU row idx s hb
          · exact ih (idx + 1) (k + 1) s hs2

theorem processOneTable_run (cfg : Config) (dateConv : String → PyVal → PyVal)
    (numericDtype : String → Bool) (fails : Nat → Bool) (inp : TableInput)
    (hschema : (getTableSchemaInfo inp.schemaRows).allDbColumns ≠ [])
    (hdf : dfEmpty inp.df = false)
    (husable :
      columnsToUseInSql inp.df.cols (getTableSchemaInfo inp.schemaRows) ≠ []) :
    processOneTable cfg dateConv numericDtype fails inp =
      ⟨inp.name,
        if (tableRun cfg dateConv numericDtype fails inp).success then
          .committed
        else .rolledBack,
        (tableRun cfg dateConv numericDtype fails inp).stmts,
        (tableRun cfg dateConv numericDtype fails inp).diags⟩ := by
  have h1 : (getTableSchemaInfo inp.schemaRows).allDbColumns.isEmpty = false :=
    List.isEmpty_eq_false.mpr hschema
  have h3 : (columnsToUseInSql inp.df.cols
      (getTableSchemaInfo inp.schemaRows)).isEmpty = false :=
    List.isEmpty_eq_false.mpr husable
  simp only [processOneTable, h1, hdf, h3, Bool.false_eq_true, if_false,
    tableRun, preparedRowsOf]

/-! ## Claims about identity bracketing and the transactional pass -/

/-- C2: for every table with an identity column processed in INSERT mode
(schema retrieved, non-empty data, usable columns present) with no
database errors, the statement sequence executed on the target is exactly
SET IDENTITY_INSERT ON, then one INSERT statement per source row in row
order, then SET IDENTITY_INSERT OFF, all inside the one transaction
committed at the end; and when the mode is not INSERT or the table has no
identity column, no identity-bracketing statement is executed at all. -/
theorem identity_bracketing :
    (∀ (cfg : Config) (dateConv : String → PyVal → PyVal)
        (numericDtype : String → Bool) (fails : Nat → Bool) (inp : TableInput),
      pyUpper cfg.operationMode = "INSERT" →
      (getTableSchemaInfo inp.schemaRows).hasIdentityColumn = true →
      (getTableSchemaInfo inp.schemaRows).allDbColumns ≠ [] →
      dfEmpty inp.df = false →
      columnsToUseInSql inp.df.cols (getTableSchemaInfo inp.schemaRows) ≠ [] →
      (∀ j, fails j = false) →
      (processOneTable cfg dateConv numericDtype fails inp).stmts =
        setIdentityInsertOnSql inp.name ::
          inp.df.rows.map (fun row => insertSqlFor inp.name
            (columnsToUseInSql inp.df.cols (getTableSchemaInfo inp.schemaRows))
            (getTableSchemaInfo inp.schemaRows).numericDbColumns
            ((columnsToUseInSql inp.df.cols
                (getTableSchemaInfo inp.schemaRows)).map
              (fun c => prepareCell
                (getTableSchemaInfo inp.schemaRows).dateDbColumns
                (getTableSchemaInfo inp.schemaRows).numericDbColumns dateConv
                numericDtype c (rowLookup (csvColsStandardized inp.df.cols)
                  row c))))
          ++ [setIdentityInsertOffSql inp.name] ∧
      (processOneTable cfg dateConv numericDtype fails inp).outcome =
        TableOutcome.committed ∧
      (processOneTable cfg dateConv numericDtype fails inp).trace =
        (processOneTable cfg dateConv numericDtype fails inp).stmts.map Op.exec
          ++ [Op.commit]) ∧
    (∀ (cfg : Config) (dateConv : String → PyVal → PyVal)
        (numericDtype : String → Bool) (fails : Nat → Bool) (inp : TableInput)
        (t2 : String),
      (pyUpper cfg.operationMode ≠ "INSERT" ∨
        (getTableSchemaInfo inp.schemaRows).hasIdentityColumn = false) →
      ∀ s ∈ (processOneTable cfg dateConv numericDtype fails inp).stmts,
        s ≠ setIdentityInsertOnSql t2 ∧ s ≠ setIdentityInsertOffSql t2) := by
  constructor
  · intro cfg dc nd fails inp hmode hid hschema hdf husable hf
    rw [processOneTable_run cfg dc nd fails inp hschema hdf husable]
    have htr : tableRun cfg dc nd fails inp =
        ⟨setIdentityInsertOnSql inp.name ::
          (preparedRowsOf dc nd inp).map (fun row => insertSqlFor inp.name
            (columnsToUseInSql inp.df.cols (getTableSchemaInfo inp.schemaRows))
            (getTableSchemaInfo inp.schemaRows).numericDbColumns row)
          ++ [setIdentityInsertOffSql inp.name], [], true⟩ := by
      rw [tableRun, hmode, hid]
      exact runTable_insert_identity_noFail _ _ _ _ _ fails hf
    rw [htr]
    refine ⟨?_, rfl, ?_⟩
    · simp [preparedRowsOf, prepareRows, List.map_map, Function.comp]
    · simp [TableResult.trace]
  · intro cfg dc nd fails inp t2 hcond s hs
    by_cases h1 : (getTableSchemaInfo inp.schemaRows).allDbColumns.isEmpty = true
    · simp [processOneTable, h1] at hs
    · by_cases h2 : dfEmpty inp.df = true
      · simp [processOneTable, h1, h2] at hs
      · by_cases h3 : (columnsToUseInSql inp.df.cols
            (getTableSchemaInfo inp.schemaRows)).isEmpty = true
        · simp [processOneTable, h1, h2, h3] at hs
        · have h1' : (getTableSchemaInfo inp.schemaRows).allDbColumns.isEmpty
              = false := by simpa using h1
          have h2' : dfEmpty inp.df = false := by simpa using h2
          have h3' : (columnsToUseInSql inp.df.cols
              (getTableSchemaInfo inp.schemaRows)).isEmpty = false := by
            simpa using h3
          rw [processOneTable_run cfg dc nd fails inp
            (List.isEmpty_eq_false.mp h1') h2'
            (List.isEmpty_eq_false.mp h3')] at hs
          have hgate : (pyUpper cfg.operationMode == "INSERT" &&
              (getTableSchemaInfo inp.schemaRows).hasIdentityColumn) = false := by
            rcases hcond with h | h
            · simp [beq_eq_false_iff_ne.mpr h]
            · simp [h]
          simp only [tableRun, runTable, hgate, Bool.false_eq_true,
            if_false] at hs
          rcases runRows_stmts_shape _ _ _ _ _ _ _ _ _ s hs with ⟨x, rfl⟩ |
            ⟨x, rfl⟩
          · exact ⟨insert_prefix_ne_setOn x t2, insert_prefix_ne_setOff x t2⟩
          · exact ⟨update_prefix_ne_setOn x t2, update_prefix_ne_setOff x t2⟩

/-- Closed witness for C2: a two-row identity table in INSERT mode yields
exactly the bracketed statement sequence. -/
theorem identity_bracketing_witness :
    (processOneTable ⟨"INSERT", "ID"⟩ (fun _ v => v) (fun _ => true)
      (fun _ => false)
      ⟨"T", [⟨"ID", "int", true⟩],
        ⟨["ID"], [[PyVal.int 1], [PyVal.int 2]]⟩⟩).stmts =
      ["SET IDENTITY_INSERT [T] ON;",
       "INSERT INTO [T] ([ID]) VALUES (1);",
       "INSERT INTO [T] ([ID]) VALUES (2);",
       "SET IDENTITY_INSERT [T] OFF;"] := by
  have h := (identity_bracketing.1 ⟨"INSERT", "ID"⟩ (fun _ v => v)
    (fun _ => true) (fun _ => false)
    ⟨"T", [⟨"ID", "int", true⟩], ⟨["ID"], [[PyVal.int 1], [PyVal.int 2]]⟩⟩
    (by decide) (by decide) (by decide) (by decide) (by decide)
    (fun j => rfl)).1
  rw [h]
  decide

theorem updateBeqInsert : (("UPDATE" : String) == "INSERT") = false := by decide

theorem updateBeqUpdate : (("UPDATE" : String) == "UPDATE") = true := by decide

theorem buildRow_update_pk_missing (t : String) (u n : List String)
    (pkU : String) (row : List PyVal) (idx : Nat)
    (hpk : u.contains pkU = false) :
    buildRowStatement "UPDATE" t u n pkU row idx =
      .skip (if idx == 0 then [pkMissingDiag pkU] else []) := by
  have hmem : ¬pkU ∈ u := by simpa using hpk
  simp [buildRowStatement, updateBeqInsert, updateBeqUpdate, hmem]

theorem buildRow_update_pk_only (t : String) (n : List String) (pkU : String)
    (row : List PyVal) (idx : Nat) :
    buildRowStatement "UPDATE" t [pkU] n pkU row idx =
      .skip ["    INFO: No columns to update for row (index " ++
        toString idx ++ "). Skipping."] := by
  simp [buildRowStatement, updateBeqInsert, updateBeqUpdate]

theorem runRows_update_pk_missing_pos (t : String) (u n : List String)
    (pkU : String) (fails : Nat → Bool) (hpk : u.contains pkU = false) :
    ∀ (rows : List (List PyVal)) (idx k : Nat), idx ≠ 0 →
      runRows "UPDATE" t u n pkU fails rows idx k = ([], [], k, true) := by
  intro rows
  induction rows with
  | nil => intro idx k _; simp [runRows]
  | cons row rest ih =>
    intro idx k hidx
    have hi0 : (idx == 0) = false := by simpa using hidx
    have hb : buildRowStatement "UPDATE" t u n pkU row idx = .skip [] := by
      rw [buildRow_update_pk_missing t u n pkU row idx hpk, hi0]
      rfl
    rw [runRows, hb]
    dsimp only
    rw [ih (idx + 1) k (by omega)]
    rfl

theorem runRows_update_pk_missing_zero (t : String) (u n : List String)
    (pkU : String) (fails : Nat → Bool) (hpk : u.contains pkU = false)
    (row : List PyVal) (rest : List (List PyVal)) (k : Nat) :
    runRows "UPDATE" t u n pkU fails (row :: rest) 0 k =
      ([], [pkMissingDiag pkU], k, true) := by
  have hb : buildRowStatement "UPDATE" t u n pkU row 0 =
      .skip [pkMissingDiag pkU] := by
    rw [buildRow_update_pk_missing t u n pkU row 0 hpk]
    rfl
  rw [runRows, hb]
  dsimp only
  rw [runRows_update_pk_missing_pos t u n pkU fails hpk rest 1 k (by omega)]
  rfl

theorem runTable_update_pk_missing (t pkU : String) (hasId : Bool)
    (u n : List String) (fails : Nat → Bool) (hpk : u.contains pkU = false)
    (row : List PyVal) (rest : List (List PyVal)) :
    runTable "UPDATE" pkU t hasId u n (row :: rest) fails =
      ⟨[], [pkMissingDiag pkU], true⟩ := by
  have hgate : (("UPDATE" : String) == "INSERT" && hasId) = false := by
    simp [updateBeqInsert]
  simp only [runTable, hgate, Bool.false_eq_true, if_false]
  rw [runRows_update_pk_missing_zero t u n pkU fails hpk row rest 0]

theorem runRows_all_skip (modeU t : String) (u n : List String) (pkU : String)
    (fails : Nat → Bool)
    (h : ∀ (row : List PyVal) (idx : Nat), ∃ ds,
      buildRowStatement modeU t u n pkU row idx = .skip ds) :
    ∀ (rows : List (List PyVal)) (idx k : Nat),
      (runRows modeU t u n pkU fails rows idx k).1 = [] ∧
      (runRows modeU t u n pkU fails rows idx k).2.2.2 = true := by
  intro rows
  induction rows with
  | nil => intro idx k; simp [runRows]
  | cons row rest ih =>
    intro idx k
    obtain ⟨ds, hds⟩ := h row idx
    rw [runRows, hds]
    dsimp only
    exact ⟨(ih (idx + 1) k).1, (ih (idx + 1) k).2⟩

/-- C8: in UPDATE mode, a row of a table whose usable columns do not
contain the case-normalized primary key is skipped with the diagnostic of
line 364 naming the missing key (printed for the first row), generates no
UPDATE statement, and the table's pass continues through the remaining
rows to a successful end rather than failing; likewise a row whose SET
clause would be empty (the primary key was the only usable column) is
skipped with the INFO diagnostic of line 368. -/
theorem update_missing_pk_skips :
    (∀ (t : String) (u n : List String) (pkU : String) (row : List PyVal)
        (idx : Nat), u.contains pkU = false →
      buildRowStatement "UPDATE" t u n pkU row idx =
        .skip (if idx == 0 then [pkMissingDiag pkU] else [])) ∧
    (∀ (t pkU : String) (hasId : Bool) (u n : List String)
        (fails : Nat → Bool) (row : List PyVal) (rest : List (List PyVal)),
      u.contains pkU = false →
      runTable "UPDATE" pkU t hasId u n (row :: rest) fails =
        ⟨[], [pkMissingDiag pkU], true⟩) ∧
    (∀ (t : String) (n : List String) (pkU : String) (row : List PyVal)
        (idx : Nat),
      buildRowStatement "UPDATE" t [pkU] n pkU row idx =
        .skip ["    INFO: No columns to update for row (index " ++
          toString idx ++ "). Skipping."]) ∧
    (∀ (t pkU : String) (hasId : Bool) (n : List String)
        (fails : Nat → Bool) (rows : List (List PyVal)),
      (runTable "UPDATE" pkU t hasId [pkU] n rows fails).stmts = [] ∧
      (runTable "UPDATE" pkU t hasId [pkU] n rows fails).success = true) := by
  refine ⟨?_, ?_, ?_, ?_⟩
  · intro t u n pkU row idx hpk
    exact buildRow_update_pk_missing t u n pkU row idx hpk
  · intro t pkU hasId u n fails row rest hpk
    exact runTable_update_pk_missing t pkU hasId u n fails hpk row rest
  · intro t n pkU row idx
    exact buildRow_update_pk_only t n pkU row idx
  · intro t pkU hasId n fails rows
    have hgate : (("UPDATE" : String) == "INSERT" && hasId) = false := by
      simp [updateBeqInsert]
    have h := runRows_all_skip "UPDATE" t [pkU] n pkU fails
      (fun row idx => ⟨_, buildRow_update_pk_only t n pkU row idx⟩) rows 0 0
    constructor
    · simp only [runTable, hgate, Bool.false_eq_true, if_false]
      exact h.1
    · simp only [runTable, hgate, Bool.false_eq_true, if_false]
      exact h.2

/-- Closed witness for C8: one row, usable columns without the primary
key: the row is skipped with the diagnostic, no statement is executed,
and the pass commits. -/
theorem update_missing_pk_skips_witness :
    runTable "UPDATE" "ID" "T" false ["A"] [] [[PyVal.int 5]]
      (fun _ => false) = ⟨[], [pkMissingDiag "ID"], true⟩ :=
  update_missing_pk_skips.2.1 "T" "ID" false ["A"] [] (fun _ => false)
    [PyVal.int 5] [] (by decide)

/-- C10: in UPDATE mode, a non-empty table all of whose rows are skipped
(every row-loop iteration takes a skip branch, e.g. because the primary
key is absent from the usable columns) still reaches the commit of
line 390: the transaction is committed with zero executed statements and
the table is counted among the successfully committed tables, not among
the failed ones. -/
theorem update_all_rows_skipped_commits (cfg : Config)
    (dateConv : String → PyVal → PyVal) (numericDtype : String → Bool)
    (fails : Nat → Bool) (inp : TableInput)
    (hmode : pyUpper cfg.operationMode = "UPDATE")
    (hschema : (getTableSchemaInfo inp.schemaRows).allDbColumns ≠ [])
    (hdf : dfEmpty inp.df = false)
    (husable :
      columnsToUseInSql inp.df.cols (getTableSchemaInfo inp.schemaRows) ≠ [])
    (hskip : ∀ (row : List PyVal) (idx : Nat), ∃ ds,
      buildRowStatement "UPDATE" inp.name
        (columnsToUseInSql inp.df.cols (getTableSchemaInfo inp.schemaRows))
        (getTableSchemaInfo inp.schemaRows).numericDbColumns
        (pyUpper cfg.primaryKeyColumn) row idx = .skip ds) :
    (processOneTable cfg dateConv numericDtype fails inp).outcome =
      TableOutcome.committed ∧
    (processOneTable cfg dateConv numericDtype fails inp).stmts = [] ∧
    (processOneTable cfg dateConv numericDtype fails inp).trace =
      [Op.commit] ∧
    totalTablesCommittedSuccessfully
      [processOneTable cfg dateConv numericDtype fails inp] = 1 ∧
    failedDataTablesCount
      [processOneTable cfg dateConv numericDtype fails inp] = 0 := by
  have hgate : (pyUpper cfg.operationMode == "INSERT" &&
      (getTableSchemaInfo inp.schemaRows).hasIdentityColumn) = false := by
    rw [hmode]
    simp [updateBeqInsert]
  have hrr := runRows_all_skip "UPDATE" inp.name
    (columnsToUseInSql inp.df.cols (getTableSchemaInfo inp.schemaRows))
    (getTableSchemaInfo inp.schemaRows).numericDbColumns
    (pyUpper cfg.primaryKeyColumn) fails hskip
    (preparedRowsOf dateConv numericDtype inp) 0 0
  have hstmts : (tableRun cfg dateConv numericDtype fails inp).stmts = [] := by
    rw [tableRun]
    simp only [runTable, hgate, Bool.false_eq_true, if_false]
    rw [hmode]
    exact hrr.1
  have hsucc : (tableRun cfg dateConv numericDtype fails inp).success = true := by
    rw [tableRun]
    simp only [runTable, hgate, Bool.false_eq_true, if_false]
    rw [hmode]
    exact hrr.2
  rw [processOneTable_run cfg dateConv numericDtype fails inp hschema hdf
    husable]
  simp [hstmts, hsucc, TableResult.trace, totalTablesCommittedSuccessfully,
    countsCommitted, failedDataTablesCount, tablesAttemptedInDataPass]

/-- Closed witness for C10: a one-row table in UPDATE mode whose primary
key is not among the usable columns commits with zero statements. -/
theorem update_all_rows_skipped_commits_witness :
    (processOneTable ⟨"UPDATE", "ID"⟩ (fun _ v => v) (fun _ => true)
      (fun _ => false)
      ⟨"T", [⟨"A", "int", false⟩], ⟨["A"], [[PyVal.int 1]]⟩⟩).outcome =
      TableOutcome.committed ∧
    (processOneTable ⟨"UPDATE", "ID"⟩ (fun _ v => v) (fun _ => true)
      (fun _ => false)
      ⟨"T", [⟨"A", "int", false⟩], ⟨["A"], [[PyVal.int 1]]⟩⟩).stmts = [] := by
  have h := update_all_rows_skipped_commits ⟨"UPDATE", "ID"⟩ (fun _ v => v)
    (fun _ => true) (fun _ => false)
    ⟨"T", [⟨"A", "int", false⟩], ⟨["A"], [[PyVal.int 1]]⟩⟩ (by decide)
    (by decide) (by decide) (by decide)
    (fun row idx => ⟨if idx == 0 then [pkMissingDiag "ID"] else [],
      buildRow_update_pk_missing _ _ _ _ row idx (by decide)⟩)
  exact ⟨h.1, h.2.1⟩

/-- C4 as stated is false on the code's reported outcome counts: a
one-table run whose only table is skipped for lack of usable columns (a
timestamp-only overlap) executes no statement and takes the skip branch,
yet the run's only failure-related count, `failed_data_tables_count =
attempted - committed` (line 429, printed as "Failed (rolled back or
skipped)", line 431), is 1: the skipped table is counted there, not in a
separate skipped count. -/
theorem no_usable_columns_counterexample :
    (runDataPass ⟨"INSERT", "ID"⟩ (fun _ v => v) (fun _ => true)
      (fun _ _ => false)
      [⟨"T", [⟨"RV", "timestamp", false⟩], ⟨["rv"], [[PyVal.int 1]]⟩⟩]).map
        (fun r => (r.outcome, r.stmts)) =
      [(TableOutcome.skippedNoUsable, ([] : List String))] ∧
    totalTablesCommittedSuccessfully
      (runDataPass ⟨"INSERT", "ID"⟩ (fun _ v => v) (fun _ => true)
        (fun _ _ => false)
        [⟨"T", [⟨"RV", "timestamp", false⟩], ⟨["rv"], [[PyVal.int 1]]⟩⟩]) = 0 ∧
    failedDataTablesCount
      (runDataPass ⟨"INSERT", "ID"⟩ (fun _ v => v) (fun _ => true)
        (fun _ _ => false)
        [⟨"T", [⟨"RV", "timestamp", false⟩], ⟨["rv"], [[PyVal.int 1]]⟩⟩]) = 1 ∧
    (1 : Nat) ≠ 0 := by decide

/-- C4 amended: for every table with a retrieved schema and non-empty
fetched data whose reconciled usable-column set is empty, no INSERT or
UPDATE statement is generated or executed (the per-table branch is the
skip of lines 307-309, touching no transaction), and in the run's counts
the table is attempted but not committed — so it is not reported as
committed, but it does contribute to the derived count
`attempted - committed` that the summary prints as "Failed (rolled back
or skipped)"; there is no separate skipped count. -/
theorem no_usable_columns_skip (cfg : Config)
    (dateConv : String → PyVal → PyVal) (numericDtype : String → Bool)
    (fails : Nat → Bool) (inp : TableInput)
    (hschema : (getTableSchemaInfo inp.schemaRows).allDbColumns ≠ [])
    (hdf : dfEmpty inp.df = false)
    (husable :
      columnsToUseInSql inp.df.cols (getTableSchemaInfo inp.schemaRows) = []) :
    processOneTable cfg dateConv numericDtype fails inp =
      ⟨inp.name, .skippedNoUsable, [], []⟩ ∧
    (processOneTable cfg dateConv numericDtype fails inp).trace = [] ∧
    countsCommitted TableOutcome.skippedNoUsable = false ∧
    tablesAttemptedInDataPass
      [processOneTable cfg dateConv numericDtype fails inp] = 1 ∧
    totalTablesCommittedSuccessfully
      [processOneTable cfg dateConv numericDtype fails inp] = 0 ∧
    failedDataTablesCount
      [processOneTable cfg dateConv numericDtype fails inp] = 1 := by
  have h1 : (getTableSchemaInfo inp.schemaRows).allDbColumns.isEmpty = false :=
    List.isEmpty_eq_false.mpr hschema
  have h3 : (columnsToUseInSql inp.df.cols
      (getTableSchemaInfo inp.schemaRows)).isEmpty = true := by
    simp [husable]
  have hres : processOneTable cfg dateConv numericDtype fails inp =
      ⟨inp.name, .skippedNoUsable, [], []⟩ := by
    simp [processOneTable, h1, hdf, h3]
  rw [hres]
  simp [TableResult.trace, countsCommitted, tablesAttemptedInDataPass,
    totalTablesCommittedSuccessfully, failedDataTablesCount]

/-- Closed witness for the amended C4 at the counterexample's input. -/
theorem no_usable_columns_skip_witness :
    processOneTable ⟨"INSERT", "ID"⟩ (fun _ v => v) (fun _ => true)
      (fun _ => false)
      ⟨"T", [⟨"RV", "timestamp", false⟩], ⟨["rv"], [[PyVal.int 1]]⟩⟩ =
      ⟨"T", .skippedNoUsable, [], []⟩ :=
  (no_usable_columns_skip ⟨"INSERT", "ID"⟩ (fun _ v => v) (fun _ => true)
    (fun _ => false)
    ⟨"T", [⟨"RV", "timestamp", false⟩], ⟨["rv"], [[PyVal.int 1]]⟩⟩
    (by decide) (by decide) (by decide)).1

/-- C9: when the table-list file does not exist or cannot be read (the
reader's exception handlers leave the accumulator untouched), the reader
returns the empty list of table names instead of raising; the fetch
orchestrator then returns the empty data map, and the whole run returns
after "No data fetched from source" with zero table results, zero
connection operations and zero SQL executed. -/
theorem missing_table_list_clean_run (cfg : Config)
    (sourceConnOk targetConnOk : Bool) (fetch : String → Option DataFrame)
    (schemaOf : String → List SchemaRow) (dateConv : String → PyVal → PyVal)
    (numericDtype : String → Bool) (failsFor : Nat → Nat → Bool) :
    getTableNamesFromFile Option.none = [] ∧
    fetchAllDataFromSource Option.none sourceConnOk fetch = [] ∧
    processDataAndGenerateSql cfg Option.none sourceConnOk targetConnOk fetch
      schemaOf dateConv numericDtype failsFor = [] ∧
    passTrace (processDataAndGenerateSql cfg Option.none sourceConnOk
      targetConnOk fetch schemaOf dateConv numericDtype failsFor) = [] ∧
    committedAfter (processDataAndGenerateSql cfg Option.none sourceConnOk
      targetConnOk fetch schemaOf dateConv numericDtype failsFor) = [] :=
  ⟨rfl, rfl, rfl, rfl, rfl⟩

/-! ## Lemmas about the transactional semantics -/

theorem applyOps_execs (nm : String) (ss : List String) :
    ∀ (rest : List (String × Op)) (committed pending : List (String × String)),
      applyOps (ss.map (fun s => (nm, Op.exec s)) ++ rest) committed pending =
        applyOps rest committed (pending ++ ss.map (fun s => (nm, s))) := by
  induction ss with
  | nil => intro rest c p; simp
  | cons s ss ih =>
    intro rest c p
    simp only [List.map_cons, List.cons_append]
    rw [applyOps, ih]
    simp

theorem applyOps_table_trace (r : TableResult) :
    ∀ (rest : List (String × Op)) (committed : List (String × String)),
      applyOps (r.trace.map (fun o => (r.name, o)) ++ rest) committed [] =
        applyOps rest (committed ++ contribution r) [] := by
  intro rest c
  rcases r with ⟨nm, outcome, stmts, diags⟩
  cases outcome with
  | committed =>
    have hcomp : List.map (fun o => (nm, o)) (stmts.map Op.exec) =
        stmts.map (fun s => (nm, Op.exec s)) := by
      rw [List.map_map]
      rfl
    simp only [TableResult.trace, contribution, List.map_append, hcomp]
    rw [List.append_assoc, applyOps_execs]
    simp only [List.map_cons, List.map_nil, List.cons_append, List.nil_append]
    rw [applyOps]
    simp
  | rolledBack =>
    have hcomp : List.map (fun o => (nm, o)) (stmts.map Op.exec) =
        stmts.map (fun s => (nm, Op.exec s)) := by
      rw [List.map_map]
      rfl
    simp only [TableResult.trace, contribution, List.map_append, hcomp]
    rw [List.append_assoc, applyOps_execs]
    simp only [List.map_cons, List.map_nil, List.cons_append, List.nil_append]
    rw [applyOps]
    simp
  | skippedNoSchema => simp [TableResult.trace, contribution]
  | emptyCommitted => simp [TableResult.trace, contribution]
  | skippedNoUsable => simp [TableResult.trace, contribution]

theorem applyOps_passTrace (rs : List TableResult) :
    ∀ committed : List (String × String),
      applyOps (passTrace rs) committed [] =
        committed ++ (rs.map contribution).flatten := by
  induction rs with
  | nil => intro c; simp [passTrace, applyOps]
  | cons r rest ih =>
    intro c
    have hcons : passTrace (r :: rest) =
        r.trace.map (fun o => (r.name, o)) ++ passTrace rest := by
      simp [passTrace]
    rw [hcons, applyOps_table_trace r (passTrace rest) c,
      ih (c ++ contribution r)]
    simp [List.append_assoc]

theorem committedAfter_eq (rs : List TableResult) :
    committedAfter rs = (rs.map contribution).flatten := by
  have h := applyOps_passTrace rs []
  simpa [committedAfter] using h

theorem contribution_name (r : TableResult) (p : String × String)
    (hp : p ∈ contribution r) : p.1 = r.name := by
  unfold contribution at hp
  split at hp
  · obtain ⟨s, _, rfl⟩ := List.mem_map.mp hp
    rfl
  · cases hp

theorem committedAfter_filter_eq (rs : List TableResult) (r : TableResult)
    (hr : r ∈ rs) (hnd : (rs.map TableResult.name).Nodup) :
    (committedAfter rs).filter (fun p => p.1 == r.name) = contribution r := by
  rw [committedAfter_eq]
  induction rs with
  | nil => cases hr
  | cons a rest ih =>
    simp only [List.map_cons, List.flatten_cons, List.filter_append]
    have hnd2 : (rest.map TableResult.name).Nodup :=
      (List.nodup_cons.mp hnd).2
    rcases List.mem_cons.mp hr with rfl | hr2
    · have h1 : (contribution r).filter (fun p => p.1 == r.name) =
          contribution r := by
        apply List.filter_eq_self.mpr
        intro p hp
        rw [contribution_name r p hp]
        exact beq_self_eq_true _
      have hnotin : r.name ∉ rest.map TableResult.name :=
        (List.nodup_cons.mp hnd).1
      have h2 : ((rest.map contribution).flatten).filter
          (fun p => p.1 == r.name) = [] := by
        apply List.filter_eq_nil_iff.mpr
        intro p hp
        obtain ⟨l, hl, hpl⟩ := List.mem_flatten.mp hp
        obtain ⟨x, hx, rfl⟩ := List.mem_map.mp hl
        have hx1 : p.1 = x.name := contribution_name x p hpl
        have hxne : x.name ≠ r.name := by
          intro he
          exact hnotin (he ▸ List.mem_map_of_mem TableResult.name hx)
        rw [hx1]
        simp [hxne]
      rw [h1, h2, List.append_nil]
    · have hane : a.name ≠ r.name := by
        intro he
        exact (List.nodup_cons.mp hnd).1
          (he ▸ List.mem_map_of_mem TableResult.name hr2)
      have h1 : (contribution a).filter (fun p => p.1 == r.name) = [] := by
        apply List.filter_eq_nil_iff.mpr
        intro p hp
        rw [contribution_name a p hp]
        simp [hane]
      rw [h1, List.nil_append]
      exact ih hr2 hnd2

theorem getElem?_mapIdx' {α β : Type} (f : Nat → α → β) :
    ∀ (l : List α) (i : Nat), (l.mapIdx f)[i]? = (l[i]?).map (f i) := by
  intro l
  induction l generalizing f with
  | nil => intro i; simp
  | cons a l ih =>
    intro i
    rw [List.mapIdx_cons]
    cases i with
    | zero => simp
    | succ j =>
      simp only [List.getElem?_cons_succ]
      exact ih (fun i => f (i + 1)) j

theorem runRows_nofail_spec (modeU t : String) (u n : List String)
    (pkU : String) :
    ∀ (rows : List (List PyVal)) (idx k : Nat),
      (runRows modeU t u n pkU (fun _ => false) rows idx k).2.2.2 = true ∧
      (runRows modeU t u n pkU (fun _ => false) rows idx k).2.2.1 =
        k + (runRows modeU t u n pkU (fun _ => false) rows idx k).1.length := by
  intro rows
  induction rows with
  | nil => intro idx k; simp [runRows]
  | cons row rest ih =>
    intro idx k
    rcases hb : buildRowStatement modeU t u n pkU row idx with _ | ds | sql
    · rw [runRows, hb]
      dsimp only
      simp
    · rw [runRows, hb]
      dsimp only
      exact ⟨(ih (idx + 1) k).1, (ih (idx + 1) k).2⟩
    · rw [runRows, hb]
      dsimp only
      by_cases hsq : (sql == "") = true
      · rw [if_pos hsq]
        dsimp only
        exact ⟨(ih (idx + 1) k).1, (ih (idx + 1) k).2⟩
      · rw [if_neg hsq]
        simp only [Bool.false_eq_true, if_false]
        obtain ⟨h1, h2⟩ := ih (idx + 1) (k + 1)
        refine ⟨h1, ?_⟩
        simp only [List.length_cons]
        rw [h2]
        omega

theorem runRows_agree (modeU t : String) (u n : List String) (pkU : String)
    (fails : Nat → Bool) :
    ∀ (rows : List (List PyVal)) (idx k : Nat),
      (∀ j, k ≤ j →
        j < k +
          (runRows modeU t u n pkU (fun _ => false) rows idx k).1.length →
        fails j = false) →
      runRows modeU t u n pkU fails rows idx k =
        runRows modeU t u n pkU (fun _ => false) rows idx k := by
  intro rows
  induction rows with
  | nil => intro idx k _; simp [runRows]
  | cons row rest ih =>
    intro idx k h
    rcases hb : buildRowStatement modeU t u n pkU row idx with _ | ds | sql
    · rw [runRows, hb, runRows, hb]
    · rw [runRows, hb, runRows, hb]
      dsimp only
      rw [ih (idx + 1) k (fun j hj1 hj2 => h j hj1 (by
        rw [runRows, hb]
        exact hj2))]
    · rw [runRows, hb, runRows, hb]
      dsimp only
      by_cases hsq : (sql == "") = true
      · rw [if_pos hsq, if_pos hsq]
        rw [ih (idx + 1) k (fun j hj1 hj2 => h j hj1 (by
          rw [runRows, hb]
          dsimp only
          rw [if_pos hsq]
          exact hj2))]
      · rw [if_neg hsq, if_neg hsq]
        have hlen :
            (runRows modeU t u n pkU (fun _ => false) (row :: rest) idx
              k).1.length =
            (runRows modeU t u n pkU (fun _ => false) rest (idx + 1)
              (k + 1)).1.length + 1 := by
          rw [runRows, hb]
          dsimp only
          rw [if_neg hsq]
          simp
        have hk : fails k = false := by
          apply h k (Nat.le_refl k)
          rw [hlen]
          omega
        rw [hk]
        simp only [Bool.false_eq_true, if_false]
        rw [ih (idx + 1) (k + 1) (fun j hj1 hj2 => h j (by omega) (by
          rw [hlen]
          omega))]

theorem runRows_fail_trigger (modeU t : String) (u n : List String)
    (pkU : String) (fails : Nat → Bool) (K : Nat)
    (hbelow : ∀ j, j < K → fails j = false) (hK : fails K = true) :
    ∀ (rows : List (List PyVal)) (idx k : Nat), k ≤ K →
      K < k + (runRows modeU t u n pkU (fun _ => false) rows idx k).1.length →
      (runRows modeU t u n pkU fails rows idx k).2.2.2 = false := by
  intro rows
  induction rows with
  | nil =>
    intro idx k hk hlt
    simp [runRows] at hlt
    omega
  | cons row rest ih =>
    intro idx k hkK hlt
    rcases hb : buildRowStatement modeU t u n pkU row idx with _ | ds | sql
    · rw [runRows, hb] at hlt
      dsimp only at hlt
      simp at hlt
      omega
    · rw [runRows, hb] at hlt ⊢
      dsimp only at hlt ⊢
      exact ih (idx + 1) k hkK hlt
    · rw [runRows, hb] at hlt ⊢
      dsimp only at hlt ⊢
      by_cases hsq : (sql == "") = true
      · rw [if_pos hsq] at hlt ⊢
        dsimp only at hlt ⊢
        exact ih (idx + 1) k hkK hlt
      · rw [if_neg hsq] at hlt ⊢
        simp only [Bool.false_eq_true, if_false] at hlt
        rcases Nat.lt_or_ge k K with hlt2 | hge
        · have hkf : fails k = false := hbelow k hlt2
          rw [hkf]
          simp only [Bool.false_eq_true, if_false]
          apply ih (idx + 1) (k + 1) (by omega)
          simp only [List.length_cons] at hlt
          omega
        · have hkeq : k = K := by omega
          subst hkeq
          rw [hK]
          simp

theorem runTable_fail_trigger (modeU pkU t : String) (hasId : Bool)
    (u n : List String) (prows : List (List PyVal)) (fails : Nat → Bool)
    (K : Nat) (hbelow : ∀ j, j < K → fails j = false) (hK : fails K = true)
    (hcount : K <
      (runTable modeU pkU t hasId u n prows (fun _ => false)).stmts.length) :
    (runTable modeU pkU t hasId u n prows fails).success = false := by
  by_cases hgate : (modeU == "INSERT" && hasId) = true
  · obtain ⟨hok0, hk0⟩ := runRows_nofail_spec modeU t u n pkU prows 0 1
    have hlen : (runTable modeU pkU t hasId u n prows (fun _ => false)).stmts =
        setIdentityInsertOnSql t ::
          (runRows modeU t u n pkU (fun _ => false) prows 0 1).1 ++
          [setIdentityInsertOffSql t] := by
      simp only [runTable, hgate, if_true]
      dsimp only
      simp only [Bool.false_eq_true, if_false, hok0, if_true]
    rw [hlen] at hcount
    simp only [List.length_cons, List.length_append, List.length_nil]
      at hcount
    simp only [runTable, hgate, if_true]
    rcases Nat.eq_zero_or_pos K with rfl | hKpos
    · rw [hK]
      simp
    · have h0 : fails 0 = false := hbelow 0 hKpos
      rw [h0]
      simp only [Bool.false_eq_true, if_false]
      by_cases hmid : K < 1 +
          (runRows modeU t u n pkU (fun _ => false) prows 0 1).1.length
      · have hf := runRows_fail_trigger modeU t u n pkU fails K hbelow hK
          prows 0 1 (by omega) hmid
        simp [hf]
      · have hagree := runRows_agree modeU t u n pkU fails prows 0 1
          (fun j hj1 hj2 => hbelow j (by omega))
        rw [hagree, hok0]
        simp only [if_true]
        rw [hk0]
        have hKeq : (1 : Nat) +
            (runRows modeU t u n pkU (fun _ => false) prows 0 1).1.length
            = K := by omega
        rw [hKeq, hK]
        simp
  · have hgate' : (modeU == "INSERT" && hasId) = false := by simpa using hgate
    simp only [runTable, hgate', Bool.false_eq_true, if_false] at hcount ⊢
    exact runRows_fail_trigger modeU t u n pkU fails K hbelow hK prows 0 0
      (Nat.zero_le K) (by omega)

/-- C1: per-table transactional atomicity of the data pass.  (i) Each
table's result is a function of its own input and its own failure oracle
alone, so one table's failure leaves every other table's outcome
unchanged; (ii) the committed state after the pass is the concatenation
of the per-table contributions; (iii) under distinct table names, a
rolled-back table has zero committed rows while a committed table has
exactly its executed statements committed, through a trace that is its
statements followed by a single commit (one transaction); (iv) if the
K-th execute of a table's block raises (all earlier ones succeeding) and
the no-failure run would have executed more than K statements, the
block's success flag is false, i.e. the whole pass for that table is
rolled back; (v) on the non-skipped path the table is recorded committed
exactly when its execution block succeeded. -/
theorem per_table_atomicity :
    (∀ (cfg : Config) (dateConv : String → PyVal → PyVal)
        (numericDtype : String → Bool) (failsFor : Nat → Nat → Bool)
        (inputs : List TableInput) (i : Nat),
      (runDataPass cfg dateConv numericDtype failsFor inputs)[i]? =
        (inputs[i]?).map (fun inp =>
          processOneTable cfg dateConv numericDtype (failsFor i) inp)) ∧
    (∀ rs : List TableResult,
      committedAfter rs = (rs.map contribution).flatten) ∧
    (∀ (rs : List TableResult) (r : TableResult), r ∈ rs →
      (rs.map TableResult.name).Nodup →
      ((r.outcome = TableOutcome.rolledBack →
        (committedAfter rs).filter (fun p => p.1 == r.name) = []) ∧
       (r.outcome = TableOutcome.committed →
        (committedAfter rs).filter (fun p => p.1 == r.name) =
          r.stmts.map (fun s => (r.name, s)) ∧
        r.trace = r.stmts.map Op.exec ++ [Op.commit]))) ∧
    (∀ (modeU pkU t : String) (hasId : Bool) (u n : List String)
        (prows : List (List PyVal)) (fails : Nat → Bool) (K : Nat),
      (∀ j, j < K → fails j = false) → fails K = true →
      K < (runTable modeU pkU t hasId u n prows
        (fun _ => false)).stmts.length →
      (runTable modeU pkU t hasId u n prows fails).success = false) ∧
    (∀ (cfg : Config) (dateConv : String → PyVal → PyVal)
        (numericDtype : String → Bool) (fails : Nat → Bool)
        (inp : TableInput),
      (getTableSchemaInfo inp.schemaRows).allDbColumns ≠ [] →
      dfEmpty inp.df = false →
      columnsToUseInSql inp.df.cols (getTableSchemaInfo inp.schemaRows)
        ≠ [] →
      (processOneTable cfg dateConv numericDtype fails inp).outcome =
        (if (tableRun cfg dateConv numericDtype fails inp).success then
          TableOutcome.committed
        else TableOutcome.rolledBack)) := by
  refine ⟨?_, committedAfter_eq, ?_, runTable_fail_trigger, ?_⟩
  · intro cfg dateConv numericDtype failsFor inputs i
    exact getElem?_mapIdx'
      (fun i inp => processOneTable cfg dateConv numericDtype (failsFor i) inp)
      inputs i
  · intro rs r hr hnd
    constructor
    · intro hout
      rw [committedAfter_filter_eq rs r hr hnd]
      simp [contribution, hout]
    · intro hout
      constructor
      · rw [committedAfter_filter_eq rs r hr hnd]
        simp [contribution, hout]
      · simp [TableResult.trace, hout]
  · intro cfg dateConv numericDtype fails inp hschema hdf husable
    rw [processOneTable_run cfg dateConv numericDtype fails inp hschema hdf
      husable]

/-- Closed witness for C1: with two tables, an error at the second
execute of the first table rolls that table back (zero of its rows end up
committed) while the second table commits its own insert. -/
theorem per_table_atomicity_witness :
    (runTable "INSERT" "ID" "A" false ["ID"] ["ID"]
      [[PyVal.int 1], [PyVal.int 2]] (fun k => k == 1)).success = false ∧
    committedAfter (runDataPass ⟨"INSERT", "ID"⟩ (fun _ v => v)
      (fun _ => true) (fun i k => i == 0 && k == 1)
      [⟨"A", [⟨"ID", "int", false⟩], ⟨["ID"], [[PyVal.int 1], [PyVal.int 2]]⟩⟩,
       ⟨"B", [⟨"ID", "int", false⟩], ⟨["ID"], [[PyVal.int 3]]⟩⟩]) =
      [("B", "INSERT INTO [B] ([ID]) VALUES (3);")] := by
  constructor
  · exact per_table_atomicity.2.2.2.1 "INSERT" "ID" "A" false ["ID"] ["ID"]
      [[PyVal.int 1], [PyVal.int 2]] (fun k => k == 1) 1
      (by
        intro j hj
        have hj0 : j = 0 := by omega
        subst hj0
        rfl)
      rfl (by decide)
  · rw [per_table_atomicity.2.1]
    decide

end TablesMod
